import Mathlib

/-
Verification of the CAP1188 capacitive-touch-sensor driver.

The driver (CAP1188.cpp / CAP1188.h) presents a transport-agnostic
register-access abstraction over either an I2C byte primitive or a
bit-banged 4-wire SPI command protocol, plus semantic operations built
on top of it.  We embed the driver shallowly: the device handle fields,
the remote chip's register file and the wire-level event trace form one
explicit state, and every driver function is a state-passing Lean
function translated from the C++ source.
-/

set_option maxRecDepth 4000

/-! ## Register address map

The source includes CAP1188_reg.h for these constants; that header is
not part of the provided sources.  Modelled from the spec: the register
address map is the chip's documented register map (spec section 6,
"Register address map ... are chip-specific fixed constants"), so the
constants below carry the CAP1188 datasheet addresses.  The claims only
depend on each operation using its own named constant consistently. -/

def CAP1188_MAIN_CONTROL_REG : Nat := 0x00
def CAP1188_SENSOR_INPUT_STATUS_REG : Nat := 0x03
def CAP1188_AVERAGING_AND_SAMPLING_CONFIG_REG : Nat := 0x24
def CAP1188_MULTIPLE_TOUCH_CONFIGURATION_REG : Nat := 0x2A
-- Spelling CAPP1188 (double P) kept from the source.
def CAPP1188_RECALIBRATION_CONFIGURATION_REG : Nat := 0x2F
def CAP1188_SENSOR_INPUT_1_THRESHOLD_REG : Nat := 0x30
def CAP1188_SENSOR_INPUT_2_THRESHOLD_REG : Nat := 0x31
def CAP1188_SENSOR_INPUT_3_THRESHOLD_REG : Nat := 0x32
def CAP1188_SENSOR_INPUT_4_THRESHOLD_REG : Nat := 0x33
def CAP1188_SENSOR_INPUT_5_THRESHOLD_REG : Nat := 0x34
def CAP1188_SENSOR_INPUT_6_THRESHOLD_REG : Nat := 0x35
def CAP1188_SENSOR_INPUT_7_THRESHOLD_REG : Nat := 0x36
def CAP1188_SENSOR_INPUT_8_THRESHOLD_REG : Nat := 0x37
def CAP1188_STANDBY_CONFIGURATION_REG : Nat := 0x41
def CAP1188_SENSOR_INPUT_LED_LINKING_REG : Nat := 0x72
def CAP1188_PRODUCT_ID_REG : Nat := 0xFD
def CAP1188_MANUFACTURER_ID_REG : Nat := 0xFE
def CAP1188_REVISION_REG : Nat := 0xFF

/-! ## Wire-level events

Every observable interaction with the environment (GPIO levels, SPI
byte shifts, I2C byte transfers) is recorded in an event trace. -/

/-- Observable hardware interaction performed by the driver. -/
inductive Ev where
  /-- pinMode(pin, OUTPUT) -/
  | pinMode (pin : Nat)
  /-- digitalWrite(pin, HIGH/LOW); high = true means HIGH. -/
  | setLevel (pin : Nat) (high : Bool)
  /-- delay(ms) -/
  | delayMs (ms : Nat)
  /-- SPI.transferBytes(buff, NULL, n): shift bytes out. -/
  | xferOut (bytes : List Nat)
  /-- SPI.transferBytes(NULL, buff, 1): capture one reply byte. -/
  | xferIn (value : Nat)
  /-- I2Cdev readByte(dev, reg) returning value. -/
  | i2cRead (dev reg value : Nat)
  /-- I2Cdev writeByte(dev, reg, value). -/
  | i2cWrite (dev reg value : Nat)
deriving DecidableEq

/-! ## Environment model

The remote chip's register file is the authoritative state (spec
section 3).  Modelled from the spec (section 4.2) and the protocol
comments in the source: the chip's SPI command parser is hardware, not
repository code; sending 0x7D,addr sets the chip's register pointer,
0x7E,data writes the pointed register, 0x7F followed by a capture
returns the pointed register. -/

/-- Remote CAP1188 chip: register file plus SPI register pointer. -/
structure Chip where
  regs : Nat → Nat
  pointer : Nat

/-- Pointwise register-file update. -/
def updateReg (f : Nat → Nat) (a v : Nat) : Nat → Nat :=
  fun x => if x = a then v else f x

/-- Chip reaction to a shifted-out SPI command buffer. -/
def chipStep (c : Chip) (bytes : List Nat) : Chip :=
  match bytes with
  | [b0, b1] =>
      if b0 = 0x7D then { c with pointer := b1 }
      else if b0 = 0x7E then { c with regs := updateReg c.regs c.pointer b1 }
      else c
  | _ => c

/-- Driver state: the CAP1188 handle fields (_i2c, _i2cAddress, _csPin,
_resetPin from CAP1188.h), the remote chip, a flag telling whether the
underlying I2C primitive reports success (its returned status, which
the source discards), and the wire event trace. -/
structure DState where
  i2c : Bool
  i2cAddress : Nat
  csPin : Nat
  resetPin : Nat
  i2cOk : Bool
  chip : Chip
  events : List Ev

/-! ## External primitives (GPIO, SPI shift, I2C byte transfer) -/

/-- pinMode(pin, OUTPUT). -/
def pinModeOutput (pin : Nat) (s : DState) : DState :=
  { s with events := s.events ++ [Ev.pinMode pin] }

/-- digitalWrite(pin, level). -/
def digitalWrite (pin : Nat) (high : Bool) (s : DState) : DState :=
  { s with events := s.events ++ [Ev.setLevel pin high] }

/-- delay(ms). -/
def delay (ms : Nat) (s : DState) : DState :=
  { s with events := s.events ++ [Ev.delayMs ms] }

/-- SPI.transferBytes(buff, NULL, n): shifts the buffer out; the chip
parses it as a command. -/
def spiTransferOut (bytes : List Nat) (s : DState) : DState :=
  { s with chip := chipStep s.chip bytes, events := s.events ++ [Ev.xferOut bytes] }

/-- SPI.transferBytes(NULL, buff, 1): captures one byte, which the chip
supplies from the register its pointer designates. -/
def spiCapture (s : DState) : Nat × DState :=
  let v := s.chip.regs s.chip.pointer
  (v, { s with events := s.events ++ [Ev.xferIn v] })

/-- I2Cdev readByte(dev, reg, buff): delivers the register value and a
status flag; the source ignores the status. -/
def i2cReadByte (dev reg : Nat) (s : DState) : Nat × Bool × DState :=
  (s.chip.regs reg, s.i2cOk,
   { s with events := s.events ++ [Ev.i2cRead dev reg (s.chip.regs reg)] })

/-- I2Cdev writeByte(dev, reg, value): performs the write when the bus
works and reports its status; the source ignores the status. -/
def i2cWriteByte (dev reg val : Nat) (s : DState) : Bool × DState :=
  (s.i2cOk,
   { s with
       chip := if s.i2cOk then { s.chip with regs := updateReg s.chip.regs reg val } else s.chip,
       events := s.events ++ [Ev.i2cWrite dev reg val] })

/-! ## SPI command protocol engine (CAP1188.cpp lines 692-782) -/

/-- CAP1188 resetSPI: send 0x7A twice inside one chip-select frame. -/
def resetSPI (s : DState) : Bool × DState :=
  let s := digitalWrite s.csPin false s
  let s := spiTransferOut [0x7A, 0x7A] s
  let s := digitalWrite s.csPin true s
  (true, s)

/-- CAP1188 setRegisterAddress: send 0x7D then the register address
inside one chip-select frame. -/
def setRegisterAddress (regAddress : Nat) (s : DState) : Bool × DState :=
  let s := digitalWrite s.csPin false s
  let s := spiTransferOut [0x7D, regAddress] s
  let s := digitalWrite s.csPin true s
  (true, s)

/-- CAP1188 readRegister: send 0x7F, then capture one byte, inside one
chip-select frame. -/
def readRegister (s : DState) : Nat × DState :=
  let s := digitalWrite s.csPin false s
  let s := spiTransferOut [0x7F] s
  let (b, s) := spiCapture s
  let s := digitalWrite s.csPin true s
  (b, s)

/-- CAP1188 writeRegister: send 0x7E then the data byte inside one
chip-select frame. -/
def writeRegister (data : Nat) (s : DState) : Bool × DState :=
  let s := digitalWrite s.csPin false s
  let s := spiTransferOut [0x7E, data] s
  let s := digitalWrite s.csPin true s
  (true, s)

/-- CAP1188 writeRegisterAtAddress: set the register pointer, then
write the pointed register. -/
def writeRegisterAtAddress (regAddress data : Nat) (s : DState) : Bool × DState :=
  let (_, s) := setRegisterAddress regAddress s
  let (_, s) := writeRegister data s
  (true, s)

/-- CAP1188 readRegisterFromAddress: set the register pointer, then
read the pointed register (out-parameter rendered as return value). -/
def readRegisterFromAddress (regAddress : Nat) (s : DState) : Nat × DState :=
  let (_, s) := setRegisterAddress regAddress s
  let (v, s) := readRegister s
  (v, s)

/-! ## Transport dispatch

The source repeats the branch if (!_i2c) SPI-composite else
I2Cdev-call inline in every operation; it is factored here once,
with the same branch semantics. -/

/-- Transport-dispatched register read (status of the I2C primitive is
discarded, as in the source). -/
def dispatchRead (reg : Nat) (s : DState) : Nat × DState :=
  if s.i2c then
    let (v, _stat, s) := i2cReadByte s.i2cAddress reg s
    (v, s)
  else
    readRegisterFromAddress reg s

/-- Transport-dispatched register write (status of the I2C primitive is
discarded, as in the source). -/
def dispatchWrite (reg val : Nat) (s : DState) : DState :=
  if s.i2c then
    (i2cWriteByte s.i2cAddress reg val s).2
  else
    (writeRegisterAtAddress reg val s).2

/-! ## Register semantics layer (CAP1188.cpp lines 77-690) -/

/-- CAP1188 getProductId: single read of the product-id register. -/
def getProductId (s : DState) : Nat × DState :=
  dispatchRead CAP1188_PRODUCT_ID_REG s

/-- CAP1188 getManufacturerId: single read of the manufacturer-id
register. -/
def getManufacturerId (s : DState) : Nat × DState :=
  dispatchRead CAP1188_MANUFACTURER_ID_REG s

/-- CAP1188 getRevision: single read of the revision register. -/
def getRevision (s : DState) : Nat × DState :=
  dispatchRead CAP1188_REVISION_REG s

/-- CAP1188 getSensorInputs: read the sensor-input status register; if
non-zero, read the main-control register, clear its bit 0 (the C source
computes currentRegState AND NOT 0x01 on a uint8_t, i.e. AND 0xFE) and
write it back; return the original status byte. -/
def getSensorInputs (s : DState) : Nat × DState :=
  let (keys, s) := dispatchRead CAP1188_SENSOR_INPUT_STATUS_REG s
  if keys ≠ 0 then
    let (currentRegState, s) := dispatchRead CAP1188_MAIN_CONTROL_REG s
    let currentRegState := currentRegState &&& 0xFE
    let s := dispatchWrite CAP1188_MAIN_CONTROL_REG currentRegState s
    (keys, s)
  else
    (keys, s)

/-- CAP1188 setMultipleTouchConfiguration: the switch over the number
of simultaneous touches selects the register code (early return false
on an unknown count, rendered as the none case); when the circuitry is
disabled the code stays 0. -/
def setMultipleTouchConfiguration
    (multipleTouchCircuitryEnable : Bool) (numberOfSimultaneousTouches : Nat)
    (s : DState) : Bool × DState :=
  let buff? : Option Nat :=
    if multipleTouchCircuitryEnable then
      if numberOfSimultaneousTouches = 1 then some 128
      else if numberOfSimultaneousTouches = 2 then some 132
      else if numberOfSimultaneousTouches = 3 then some 136
      else if numberOfSimultaneousTouches = 4 then some 140
      else none
    else some 0
  match buff? with
  | none => (false, s)
  | some buff => (true, dispatchWrite CAP1188_MULTIPLE_TOUCH_CONFIGURATION_REG buff s)

/-- CAP1188 setSensorInputLEDLinking: write the linking mask, return
true unconditionally. -/
def setSensorInputLEDLinking (ledsToLink : Nat) (s : DState) : Bool × DState :=
  (true, dispatchWrite CAP1188_SENSOR_INPUT_LED_LINKING_REG ledsToLink s)

/-- CAP1188 setStandbyConfiguration: pack the four fields into one byte
(the C assignment to a uint8_t truncates mod 256) and write it. -/
def setStandbyConfiguration
    (averageSum samplesPerMeasurement samplingTime cycleTime : Nat)
    (s : DState) : Bool × DState :=
  let reg := (averageSum <<< 7 ||| samplesPerMeasurement <<< 4 |||
              samplingTime <<< 2 ||| cycleTime) % 256
  (true, dispatchWrite CAP1188_STANDBY_CONFIGURATION_REG reg s)

/-- CAP1188 getStandbyConfiguration: read the register and unpack the
four fields (out-parameters rendered as returned values). -/
def getStandbyConfiguration (s : DState) :
    (Bool × Nat × Nat × Nat × Nat) × DState :=
  let (reg, s) := dispatchRead CAP1188_STANDBY_CONFIGURATION_REG s
  ((true, reg >>> 7, (reg >>> 4) &&& 0x07, (reg >>> 2) &&& 0x03, reg &&& 0x03), s)

/-- CAP1188 setAveragingAndSamplingConfig: pack the three fields into
one byte (truncating to a uint8_t) and write it. -/
def setAveragingAndSamplingConfig
    (samplesPerMeasurement samplingTime cycleTime : Nat) (s : DState) :
    Bool × DState :=
  let reg := (samplesPerMeasurement <<< 4 ||| samplingTime <<< 2 ||| cycleTime) % 256
  (true, dispatchWrite CAP1188_AVERAGING_AND_SAMPLING_CONFIG_REG reg s)

/-- CAP1188 getAveragingAndSamplingConfig: read the register and unpack
the three fields. -/
def getAveragingAndSamplingConfig (s : DState) :
    (Bool × Nat × Nat × Nat) × DState :=
  let (reg, s) := dispatchRead CAP1188_AVERAGING_AND_SAMPLING_CONFIG_REG s
  ((true, (reg >>> 4) &&& 0x07, (reg >>> 2) &&& 0x03, reg &&& 0x03), s)

/-- CAP1188 setSensorInputThreshold: the switch over the button number
writes the matching per-channel threshold register; the default case
returns false without touching the hardware. -/
def setSensorInputThreshold (buttonNumber threshold : Nat) (s : DState) :
    Bool × DState :=
  if buttonNumber = 1 then
    (true, dispatchWrite CAP1188_SENSOR_INPUT_1_THRESHOLD_REG threshold s)
  else if buttonNumber = 2 then
    (true, dispatchWrite CAP1188_SENSOR_INPUT_2_THRESHOLD_REG threshold s)
  else if buttonNumber = 3 then
    (true, dispatchWrite CAP1188_SENSOR_INPUT_3_THRESHOLD_REG threshold s)
  else if buttonNumber = 4 then
    (true, dispatchWrite CAP1188_SENSOR_INPUT_4_THRESHOLD_REG threshold s)
  else if buttonNumber = 5 then
    (true, dispatchWrite CAP1188_SENSOR_INPUT_5_THRESHOLD_REG threshold s)
  else if buttonNumber = 6 then
    (true, dispatchWrite CAP1188_SENSOR_INPUT_6_THRESHOLD_REG threshold s)
  else if buttonNumber = 7 then
    (true, dispatchWrite CAP1188_SENSOR_INPUT_7_THRESHOLD_REG threshold s)
  else if buttonNumber = 8 then
    (true, dispatchWrite CAP1188_SENSOR_INPUT_8_THRESHOLD_REG threshold s)
  else
    (false, s)

/-- CAP1188 setSensorInputThresholdAll: clear bit 7 of the
recalibration configuration register, write channel 1's threshold
register (which the chip then broadcasts), restore bit 7.  The C source
ends with return 0, which as a bool is false. -/
def setSensorInputThresholdAll (threshold : Nat) (s : DState) : Bool × DState :=
  let (reg, s) := dispatchRead CAPP1188_RECALIBRATION_CONFIGURATION_REG s
  let reg := reg &&& 0x7F
  let s := dispatchWrite CAPP1188_RECALIBRATION_CONFIGURATION_REG reg s
  let s := dispatchWrite CAP1188_SENSOR_INPUT_1_THRESHOLD_REG threshold s
  let (reg, s) := dispatchRead CAPP1188_RECALIBRATION_CONFIGURATION_REG s
  let reg := reg ||| 0x80
  let s := dispatchWrite CAPP1188_RECALIBRATION_CONFIGURATION_REG reg s
  (false, s)

/-- CAP1188 getSensorInputThreshold: the switch over the button number
reads the matching per-channel threshold register; the default case
returns 0 without touching the hardware. -/
def getSensorInputThreshold (buttonNumber : Nat) (s : DState) : Nat × DState :=
  if buttonNumber = 1 then dispatchRead CAP1188_SENSOR_INPUT_1_THRESHOLD_REG s
  else if buttonNumber = 2 then dispatchRead CAP1188_SENSOR_INPUT_2_THRESHOLD_REG s
  else if buttonNumber = 3 then dispatchRead CAP1188_SENSOR_INPUT_3_THRESHOLD_REG s
  else if buttonNumber = 4 then dispatchRead CAP1188_SENSOR_INPUT_4_THRESHOLD_REG s
  else if buttonNumber = 5 then dispatchRead CAP1188_SENSOR_INPUT_5_THRESHOLD_REG s
  else if buttonNumber = 6 then dispatchRead CAP1188_SENSOR_INPUT_6_THRESHOLD_REG s
  else if buttonNumber = 7 then dispatchRead CAP1188_SENSOR_INPUT_7_THRESHOLD_REG s
  else if buttonNumber = 8 then dispatchRead CAP1188_SENSOR_INPUT_8_THRESHOLD_REG s
  else (0, s)

/-! ## Initialization (CAP1188.cpp lines 21-71) -/

/-- CAP1188 initI2C: record the transport parameters, pulse the reset
pin high for 10 ms, then apply the default configuration (multi-touch
allowed, all LEDs linked).  The C call passes 0 for the bool enable
argument, i.e. false. -/
def initI2C (address resetPin : Nat) (s : DState) : DState :=
  let s := { s with resetPin := resetPin, i2cAddress := address, i2c := true }
  let s := pinModeOutput s.resetPin s
  let s := digitalWrite s.resetPin true s
  let s := delay 10 s
  let s := digitalWrite s.resetPin false s
  let s := (setMultipleTouchConfiguration false 0 s).2
  let s := (setSensorInputLEDLinking 0b11111111 s).2
  s

/-- CAP1188 initSPI: record the transport parameters, pulse the reset
pin high for 10 ms, reset the chip's SPI command interface, then apply
the default configuration. -/
def initSPI (csPin resetPin : Nat) (s : DState) : DState :=
  let s := { s with resetPin := resetPin, csPin := csPin, i2c := false }
  let s := pinModeOutput s.resetPin s
  let s := pinModeOutput s.csPin s
  let s := digitalWrite s.resetPin true s
  let s := delay 10 s
  let s := digitalWrite s.resetPin false s
  let s := (resetSPI s).2
  let s := (setMultipleTouchConfiguration false 0 s).2
  let s := (setSensorInputLEDLinking 0b11111111 s).2
  s

/-! ## Logical register-access event patterns

Specification-side description of what one logical register read or
write looks like on the wire for each transport, used to state the
claims about operation traces. -/

/-- Wire events of one logical register read returning value. -/
def readEvts (s : DState) (reg value : Nat) : List Ev :=
  if s.i2c then [Ev.i2cRead s.i2cAddress reg value]
  else [Ev.setLevel s.csPin false, Ev.xferOut [0x7D, reg], Ev.setLevel s.csPin true,
        Ev.setLevel s.csPin false, Ev.xferOut [0x7F], Ev.xferIn value,
        Ev.setLevel s.csPin true]

/-- Wire events of one logical register write of value. -/
def writeEvts (s : DState) (reg value : Nat) : List Ev :=
  if s.i2c then [Ev.i2cWrite s.i2cAddress reg value]
  else [Ev.setLevel s.csPin false, Ev.xferOut [0x7D, reg], Ev.setLevel s.csPin true,
        Ev.setLevel s.csPin false, Ev.xferOut [0x7E, value], Ev.setLevel s.csPin true]

/-! ## Helper lemmas -/

/-- Bit 0 of a byte masked with 0xFE is clear. -/
theorem land254_bit0 (m : Nat) : (m &&& 254).testBit 0 = false := by
  simp [Nat.testBit_land]

/-- Masking with 0xFE keeps bits 1 through 7 of a byte. -/
theorem land254_bitSucc (m : Nat) (i : Fin 7) :
    (m &&& 254).testBit (i.val + 1) = m.testBit (i.val + 1) := by
  rw [Nat.testBit_land]
  have h : Nat.testBit 254 (i.val + 1) = true := by fin_cases i <;> decide
  simp [h]

/-- Packing the four standby-configuration fields into one byte and
unpacking it is the identity on in-range fields. -/
theorem standbyPack_roundTrip : ∀ a < 2, ∀ sm < 8, ∀ st < 4, ∀ ct < 4,
    ((a <<< 7 ||| sm <<< 4 ||| st <<< 2 ||| ct) % 256) >>> 7 = a ∧
    (((a <<< 7 ||| sm <<< 4 ||| st <<< 2 ||| ct) % 256) >>> 4) &&& 7 = sm ∧
    (((a <<< 7 ||| sm <<< 4 ||| st <<< 2 ||| ct) % 256) >>> 2) &&& 3 = st ∧
    ((a <<< 7 ||| sm <<< 4 ||| st <<< 2 ||| ct) % 256) &&& 3 = ct := by decide

/-- Transport and addressing fields of the handle, bundled. -/
def handleOf (s : DState) : Bool × Nat × Nat × Nat :=
  (s.i2c, s.i2cAddress, s.csPin, s.resetPin)

/-- A state transformer leaves the four handle fields of the device
handle untouched. -/
def preservesHandle (f : DState → DState) : Prop :=
  ∀ s, (f s).i2c = s.i2c ∧ (f s).i2cAddress = s.i2cAddress ∧
       (f s).csPin = s.csPin ∧ (f s).resetPin = s.resetPin

/-- Dispatched reads leave the handle fields untouched. -/
theorem handleOf_dispatchRead (reg : Nat) (s : DState) :
    handleOf (dispatchRead reg s).2 = handleOf s := by
  cases hi : s.i2c <;>
    simp [dispatchRead, i2cReadByte, readRegisterFromAddress, setRegisterAddress,
          readRegister, spiCapture, spiTransferOut, digitalWrite, handleOf, hi]

/-- Dispatched writes leave the handle fields untouched. -/
theorem handleOf_dispatchWrite (reg v : Nat) (s : DState) :
    handleOf (dispatchWrite reg v s) = handleOf s := by
  cases hi : s.i2c <;>
    simp [dispatchWrite, i2cWriteByte, writeRegisterAtAddress, setRegisterAddress,
          writeRegister, spiTransferOut, digitalWrite, handleOf, hi]

/-- Preservation of the bundled handle gives fieldwise preservation. -/
theorem preservesHandle_of_handleOf (f : DState → DState)
    (h : ∀ s, handleOf (f s) = handleOf s) : preservesHandle f := by
  intro s
  have hs := h s
  simp [handleOf, Prod.ext_iff] at hs
  exact ⟨hs.1, hs.2.1, hs.2.2.1, hs.2.2.2⟩

/-- Concrete driver state used to instantiate hypotheses of the
round-trip and validation theorems: I2C transport with a working bus. -/
def sW : DState where
  i2c := true
  i2cAddress := 0x29
  csPin := 15
  resetPin := 4
  i2cOk := true
  chip := { regs := fun _ => 5, pointer := 0 }
  events := []

/-- Concrete driver state whose I2C primitive reports failure. -/
def sFail : DState where
  i2c := true
  i2cAddress := 0x29
  csPin := 15
  resetPin := 4
  i2cOk := false
  chip := { regs := fun _ => 0, pointer := 0 }
  events := []

/-! ## Claims -/

/-- C1: for every register-file state, getSensorInputs returns the byte
read from the sensor-input status register (pre-clear); its wire trace
is exactly one read of that register followed, exactly when the byte is
non-zero, by one read of the main-control register and one write to the
main-control register of that value with bit 0 cleared and bits 1-7
unchanged; when the byte is zero there is no further register access. -/
theorem getSensorInputs_status_then_clear_int (s : DState) :
    (getSensorInputs s).1 = s.chip.regs CAP1188_SENSOR_INPUT_STATUS_REG ∧
    (getSensorInputs s).2.events =
      s.events ++
      readEvts s CAP1188_SENSOR_INPUT_STATUS_REG
        (s.chip.regs CAP1188_SENSOR_INPUT_STATUS_REG) ++
      (if s.chip.regs CAP1188_SENSOR_INPUT_STATUS_REG = 0 then []
       else readEvts s CAP1188_MAIN_CONTROL_REG (s.chip.regs CAP1188_MAIN_CONTROL_REG) ++
            writeEvts s CAP1188_MAIN_CONTROL_REG
              (s.chip.regs CAP1188_MAIN_CONTROL_REG &&& 0xFE)) ∧
    (s.chip.regs CAP1188_MAIN_CONTROL_REG &&& 0xFE).testBit 0 = false ∧
    ∀ i : Fin 7,
      (s.chip.regs CAP1188_MAIN_CONTROL_REG &&& 0xFE).testBit (i.val + 1) =
      (s.chip.regs CAP1188_MAIN_CONTROL_REG).testBit (i.val + 1) := by
  refine ⟨?_, ?_, land254_bit0 _, land254_bitSucc _⟩ <;>
  · cases hi : s.i2c <;>
    · by_cases hk : s.chip.regs 3 = 0 <;>
        simp [getSensorInputs, dispatchRead, dispatchWrite, i2cReadByte, i2cWriteByte,
              readRegisterFromAddress, writeRegisterAtAddress, setRegisterAddress,
              readRegister, writeRegister, spiCapture, spiTransferOut, digitalWrite,
              chipStep, updateReg, readEvts, writeEvts, hi, hk,
              CAP1188_SENSOR_INPUT_STATUS_REG, CAP1188_MAIN_CONTROL_REG]

/-- C2: for every register address, readRegisterFromAddress performs
exactly two chip-select-framed SPI transactions, first sending 0x7D and
the address, then sending 0x7F and capturing exactly one reply byte,
and returns the captured byte. -/
theorem readRegisterFromAddress_trace (addr : Nat) (s : DState) :
    (readRegisterFromAddress addr s).1 = s.chip.regs addr ∧
    (readRegisterFromAddress addr s).2.events =
      s.events ++
      [Ev.setLevel s.csPin false, Ev.xferOut [0x7D, addr], Ev.setLevel s.csPin true,
       Ev.setLevel s.csPin false, Ev.xferOut [0x7F],
       Ev.xferIn (s.chip.regs addr), Ev.setLevel s.csPin true] := by
  constructor <;>
    simp [readRegisterFromAddress, setRegisterAddress, readRegister, spiCapture,
          spiTransferOut, digitalWrite, chipStep, updateReg]

/-- C3: for every register address and data byte, writeRegisterAtAddress
performs exactly the two independently chip-select-framed SPI commands
0x7D with the address and 0x7E with the data, capturing nothing. -/
theorem writeRegisterAtAddress_trace (addr d : Nat) (s : DState) :
    (writeRegisterAtAddress addr d s).1 = true ∧
    (writeRegisterAtAddress addr d s).2.events =
      s.events ++
      [Ev.setLevel s.csPin false, Ev.xferOut [0x7D, addr], Ev.setLevel s.csPin true,
       Ev.setLevel s.csPin false, Ev.xferOut [0x7E, d], Ev.setLevel s.csPin true] := by
  constructor <;>
    simp [writeRegisterAtAddress, setRegisterAddress, writeRegister,
          spiTransferOut, digitalWrite, chipStep, updateReg]

/-- C4 counterexample: in a state whose I2C write primitive reports
failure, setSensorInputLEDLinking still reports success to its caller,
so an operation whose underlying transfer failed does report success,
refuting the claim that such failures propagate. -/
theorem ledLinking_success_despite_i2c_failure :
    sFail.i2cOk = false ∧
    (i2cWriteByte sFail.i2cAddress CAP1188_SENSOR_INPUT_LED_LINKING_REG 255 sFail).1 = false ∧
    (setSensorInputLEDLinking 255 sFail).1 = true :=
  ⟨rfl, rfl, rfl⟩

/-- C4 amended: the SPI shift primitive has no failure signal and the
status returned by the I2C primitive is discarded, so
setSensorInputLEDLinking and writeRegisterAtAddress report success to
their caller in every state, including states where the underlying I2C
transfer fails; no retry happens (each issues exactly one logical write
transaction). -/
theorem write_ops_ignore_primitive_status (n : Nat) (s : DState) :
    (setSensorInputLEDLinking n s).1 = true ∧
    (setSensorInputLEDLinking n s).2.events =
      s.events ++ writeEvts s CAP1188_SENSOR_INPUT_LED_LINKING_REG n ∧
    ∀ a d, (writeRegisterAtAddress a d s).1 = true := by
  refine ⟨rfl, ?_, fun a d => rfl⟩
  cases hi : s.i2c <;>
    simp [setSensorInputLEDLinking, dispatchWrite, i2cWriteByte,
          writeRegisterAtAddress, setRegisterAddress, writeRegister,
          spiTransferOut, digitalWrite, chipStep, updateReg, writeEvts, hi]

/-- C5: setMultipleTouchConfiguration with the circuitry disabled
writes 0x00 to the multi-touch configuration register and reports
success whatever the count; enabled with counts 1-4 it writes the chip
codes 128, 132, 136, 140 and reports success; enabled with a count
outside 1-4 it reports an invalid argument and performs no register
access. -/
theorem setMultipleTouchConfiguration_cases (n : Nat) (s : DState) :
    ((setMultipleTouchConfiguration false n s).1 = true ∧
     (setMultipleTouchConfiguration false n s).2.events =
       s.events ++ writeEvts s CAP1188_MULTIPLE_TOUCH_CONFIGURATION_REG 0) ∧
    ((setMultipleTouchConfiguration true 1 s).1 = true ∧
     (setMultipleTouchConfiguration true 1 s).2.events =
       s.events ++ writeEvts s CAP1188_MULTIPLE_TOUCH_CONFIGURATION_REG 128) ∧
    ((setMultipleTouchConfiguration true 2 s).1 = true ∧
     (setMultipleTouchConfiguration true 2 s).2.events =
       s.events ++ writeEvts s CAP1188_MULTIPLE_TOUCH_CONFIGURATION_REG 132) ∧
    ((setMultipleTouchConfiguration true 3 s).1 = true ∧
     (setMultipleTouchConfiguration true 3 s).2.events =
       s.events ++ writeEvts s CAP1188_MULTIPLE_TOUCH_CONFIGURATION_REG 136) ∧
    ((setMultipleTouchConfiguration true 4 s).1 = true ∧
     (setMultipleTouchConfiguration true 4 s).2.events =
       s.events ++ writeEvts s CAP1188_MULTIPLE_TOUCH_CONFIGURATION_REG 140) ∧
    (n < 1 ∨ 4 < n → setMultipleTouchConfiguration true n s = (false, s)) := by
  refine ⟨?_, ?_, ?_, ?_, ?_, ?_⟩
  case _ | _ | _ | _ | _ =>
    cases hi : s.i2c <;>
      simp [setMultipleTouchConfiguration, dispatchWrite, i2cWriteByte,
            writeRegisterAtAddress, setRegisterAddress, writeRegister,
            spiTransferOut, digitalWrite, chipStep, updateReg, writeEvts, hi]
  case _ =>
    intro hn
    simp only [setMultipleTouchConfiguration]
    split_ifs <;> first | rfl | (exfalso; omega)

/-- C5 witness: the theorem applied with the invalid count 9 on the
concrete state sW. -/
theorem setMultipleTouchConfiguration_cases_witness :
    ((9 : Nat) < 1 ∨ 4 < 9) ∧ setMultipleTouchConfiguration true 9 sW = (false, sW) :=
  ⟨Or.inr (by decide),
   (setMultipleTouchConfiguration_cases 9 sW).2.2.2.2.2 (Or.inr (by decide))⟩

/-- C6: for every channel number outside 1-8, setSensorInputThreshold
reports false and getSensorInputThreshold returns its documented error
value 0, and both leave the driver state (register file and trace)
completely unchanged, performing zero hardware transactions. -/
theorem threshold_invalid_channel_rejected (c v : Nat) (s : DState)
    (hc : c = 0 ∨ 9 ≤ c) :
    setSensorInputThreshold c v s = (false, s) ∧
    getSensorInputThreshold c s = (0, s) := by
  constructor <;>
  · simp only [setSensorInputThreshold, getSensorInputThreshold]
    split_ifs <;> first | rfl | (exfalso; omega)

/-- C6 witness: the theorem applied at the concrete invalid channels 0,
9 and 255 on the concrete state sW. -/
theorem threshold_invalid_channel_rejected_witness :
    ((0 : Nat) = 0 ∨ 9 ≤ 0) ∧ ((9 : Nat) = 0 ∨ 9 ≤ 9) ∧ ((255 : Nat) = 0 ∨ 9 ≤ 255) ∧
    (setSensorInputThreshold 0 42 sW = (false, sW) ∧ getSensorInputThreshold 0 sW = (0, sW)) ∧
    (setSensorInputThreshold 9 42 sW = (false, sW) ∧ getSensorInputThreshold 9 sW = (0, sW)) ∧
    (setSensorInputThreshold 255 42 sW = (false, sW) ∧ getSensorInputThreshold 255 sW = (0, sW)) :=
  ⟨Or.inl rfl, Or.inr (by decide), Or.inr (by decide),
   threshold_invalid_channel_rejected 0 42 sW (Or.inl rfl),
   threshold_invalid_channel_rejected 9 42 sW (Or.inr (by decide)),
   threshold_invalid_channel_rejected 255 42 sW (Or.inr (by decide))⟩

/-- C7: for every channel 1-8 and threshold value, on a working bus,
writing the threshold and then reading it back through the same
register file returns the written value. -/
theorem threshold_roundTrip (c v : Nat) (s : DState)
    (hc1 : 1 ≤ c) (hc8 : c ≤ 8) (hok : s.i2cOk = true) :
    (getSensorInputThreshold c (setSensorInputThreshold c v s).2).1 = v := by
  interval_cases c <;> cases hi : s.i2c <;>
    simp [getSensorInputThreshold, setSensorInputThreshold, dispatchRead, dispatchWrite,
          i2cReadByte, i2cWriteByte, readRegisterFromAddress, writeRegisterAtAddress,
          setRegisterAddress, readRegister, writeRegister, spiCapture, spiTransferOut,
          digitalWrite, chipStep, updateReg, hok, hi,
          CAP1188_SENSOR_INPUT_1_THRESHOLD_REG, CAP1188_SENSOR_INPUT_2_THRESHOLD_REG,
          CAP1188_SENSOR_INPUT_3_THRESHOLD_REG, CAP1188_SENSOR_INPUT_4_THRESHOLD_REG,
          CAP1188_SENSOR_INPUT_5_THRESHOLD_REG, CAP1188_SENSOR_INPUT_6_THRESHOLD_REG,
          CAP1188_SENSOR_INPUT_7_THRESHOLD_REG, CAP1188_SENSOR_INPUT_8_THRESHOLD_REG]

/-- C7 witness: the theorem applied at channel 3 with value 77 on the
concrete state sW. -/
theorem threshold_roundTrip_witness :
    (1 ≤ 3 ∧ 3 ≤ 8) ∧ sW.i2cOk = true ∧
    (getSensorInputThreshold 3 (setSensorInputThreshold 3 77 sW).2).1 = 77 :=
  ⟨⟨by decide, by decide⟩, rfl, threshold_roundTrip 3 77 sW (by decide) (by decide) rfl⟩

/-- C8: initI2C and initSPI drive the reset pin high, hold it for the
10 ms minimum, drive it low, and only then perform register operations;
initSPI additionally issues the chip-select-framed reset-interface
command 0x7A 0x7A after the pin-level reset and before any register
operation.  The full wire traces make the ordering explicit. -/
theorem init_reset_pulse_traces (address csPin resetPin : Nat) (s : DState) :
    (initI2C address resetPin s).events =
      s.events ++
      [Ev.pinMode resetPin, Ev.setLevel resetPin true, Ev.delayMs 10,
       Ev.setLevel resetPin false,
       Ev.i2cWrite address CAP1188_MULTIPLE_TOUCH_CONFIGURATION_REG 0,
       Ev.i2cWrite address CAP1188_SENSOR_INPUT_LED_LINKING_REG 255] ∧
    (initSPI csPin resetPin s).events =
      s.events ++
      [Ev.pinMode resetPin, Ev.pinMode csPin,
       Ev.setLevel resetPin true, Ev.delayMs 10, Ev.setLevel resetPin false,
       Ev.setLevel csPin false, Ev.xferOut [0x7A, 0x7A], Ev.setLevel csPin true,
       Ev.setLevel csPin false,
       Ev.xferOut [0x7D, CAP1188_MULTIPLE_TOUCH_CONFIGURATION_REG],
       Ev.setLevel csPin true,
       Ev.setLevel csPin false, Ev.xferOut [0x7E, 0], Ev.setLevel csPin true,
       Ev.setLevel csPin false,
       Ev.xferOut [0x7D, CAP1188_SENSOR_INPUT_LED_LINKING_REG],
       Ev.setLevel csPin true,
       Ev.setLevel csPin false, Ev.xferOut [0x7E, 255], Ev.setLevel csPin true] := by
  constructor
  · simp [initI2C, setMultipleTouchConfiguration, setSensorInputLEDLinking,
          dispatchWrite, i2cWriteByte, pinModeOutput, digitalWrite, delay,
          CAP1188_MULTIPLE_TOUCH_CONFIGURATION_REG, CAP1188_SENSOR_INPUT_LED_LINKING_REG]
  · simp [initSPI, setMultipleTouchConfiguration, setSensorInputLEDLinking, resetSPI,
          dispatchWrite, writeRegisterAtAddress, setRegisterAddress, writeRegister,
          pinModeOutput, digitalWrite, delay, spiTransferOut, chipStep, updateReg,
          CAP1188_MULTIPLE_TOUCH_CONFIGURATION_REG, CAP1188_SENSOR_INPUT_LED_LINKING_REG]

/-- C9: every exposed or internal register operation other than
initialization leaves the four handle fields _i2c, _i2cAddress, _csPin
and _resetPin exactly as it found them, so the transport chosen at
initialization is never mutated by register operations. -/
theorem handle_fields_immutable :
    preservesHandle (fun s => (getProductId s).2) ∧
    preservesHandle (fun s => (getManufacturerId s).2) ∧
    preservesHandle (fun s => (getRevision s).2) ∧
    preservesHandle (fun s => (getSensorInputs s).2) ∧
    (∀ e n, preservesHandle (fun s => (setMultipleTouchConfiguration e n s).2)) ∧
    (∀ n, preservesHandle (fun s => (setSensorInputLEDLinking n s).2)) ∧
    (∀ a b c d, preservesHandle (fun s => (setStandbyConfiguration a b c d s).2)) ∧
    preservesHandle (fun s => (getStandbyConfiguration s).2) ∧
    (∀ a b c, preservesHandle (fun s => (setAveragingAndSamplingConfig a b c s).2)) ∧
    preservesHandle (fun s => (getAveragingAndSamplingConfig s).2) ∧
    (∀ c v, preservesHandle (fun s => (setSensorInputThreshold c v s).2)) ∧
    (∀ v, preservesHandle (fun s => (setSensorInputThresholdAll v s).2)) ∧
    (∀ c, preservesHandle (fun s => (getSensorInputThreshold c s).2)) ∧
    preservesHandle (fun s => (resetSPI s).2) ∧
    (∀ a, preservesHandle (fun s => (setRegisterAddress a s).2)) ∧
    preservesHandle (fun s => (readRegister s).2) ∧
    (∀ d, preservesHandle (fun s => (writeRegister d s).2)) ∧
    (∀ a d, preservesHandle (fun s => (writeRegisterAtAddress a d s).2)) ∧
    (∀ a, preservesHandle (fun s => (readRegisterFromAddress a s).2)) := by
  have hr := handleOf_dispatchRead
  have hw := handleOf_dispatchWrite
  refine ⟨?_, ?_, ?_, ?_, ?_, ?_, ?_, ?_, ?_, ?_, ?_, ?_, ?_, ?_, ?_, ?_, ?_, ?_, ?_⟩
  · exact preservesHandle_of_handleOf _ fun s => by simp [getProductId, hr]
  · exact preservesHandle_of_handleOf _ fun s => by simp [getManufacturerId, hr]
  · exact preservesHandle_of_handleOf _ fun s => by simp [getRevision, hr]
  · exact preservesHandle_of_handleOf _ fun s => by
      simp only [getSensorInputs]
      by_cases hk : (dispatchRead CAP1188_SENSOR_INPUT_STATUS_REG s).1 = 0 <;>
        simp [hk, hr, hw]
  · exact fun e n => preservesHandle_of_handleOf _ fun s => by
      simp only [setMultipleTouchConfiguration]
      split_ifs <;> simp [hw]
  · exact fun n => preservesHandle_of_handleOf _ fun s => by
      simp [setSensorInputLEDLinking, hw]
  · exact fun a b c d => preservesHandle_of_handleOf _ fun s => by
      simp [setStandbyConfiguration, hw]
  · exact preservesHandle_of_handleOf _ fun s => by simp [getStandbyConfiguration, hr]
  · exact fun a b c => preservesHandle_of_handleOf _ fun s => by
      simp [setAveragingAndSamplingConfig, hw]
  · exact preservesHandle_of_handleOf _ fun s => by
      simp [getAveragingAndSamplingConfig, hr]
  · exact fun c v => preservesHandle_of_handleOf _ fun s => by
      simp only [setSensorInputThreshold]
      split_ifs <;> simp [hw]
  · exact fun v => preservesHandle_of_handleOf _ fun s => by
      simp [setSensorInputThresholdAll, hr, hw]
  · exact fun c => preservesHandle_of_handleOf _ fun s => by
      simp only [getSensorInputThreshold]
      split_ifs <;> simp [hr]
  · exact preservesHandle_of_handleOf _ fun s => by
      simp [resetSPI, digitalWrite, spiTransferOut, handleOf]
  · exact fun a => preservesHandle_of_handleOf _ fun s => by
      simp [setRegisterAddress, digitalWrite, spiTransferOut, handleOf]
  · exact preservesHandle_of_handleOf _ fun s => by
      simp [readRegister, digitalWrite, spiTransferOut, spiCapture, handleOf]
  · exact fun d => preservesHandle_of_handleOf _ fun s => by
      simp [writeRegister, digitalWrite, spiTransferOut, handleOf]
  · exact fun a d => preservesHandle_of_handleOf _ fun s => by
      simp [writeRegisterAtAddress, setRegisterAddress, writeRegister,
            digitalWrite, spiTransferOut, handleOf]
  · exact fun a => preservesHandle_of_handleOf _ fun s => by
      simp [readRegisterFromAddress, setRegisterAddress, readRegister,
            digitalWrite, spiTransferOut, spiCapture, handleOf]

/-- C10: for in-range field values (averageSum below 2,
samplesPerMeasurement below 8, samplingTime and cycleTime below 4), on
a working bus, setStandbyConfiguration followed by
getStandbyConfiguration on the same register file yields back exactly
those four values. -/
theorem standbyConfiguration_roundTrip (a sm st ct : Nat) (s : DState)
    (ha : a < 2) (hsm : sm < 8) (hst : st < 4) (hct : ct < 4)
    (hok : s.i2cOk = true) :
    (getStandbyConfiguration (setStandbyConfiguration a sm st ct s).2).1 =
      (true, a, sm, st, ct) := by
  obtain ⟨h1, h2, h3, h4⟩ := standbyPack_roundTrip a ha sm hsm st hst ct hct
  cases hi : s.i2c <;>
    simp [getStandbyConfiguration, setStandbyConfiguration, dispatchRead, dispatchWrite,
          i2cReadByte, i2cWriteByte, readRegisterFromAddress, writeRegisterAtAddress,
          setRegisterAddress, readRegister, writeRegister, spiCapture, spiTransferOut,
          digitalWrite, chipStep, updateReg, hok, hi, h1, h2, h3, h4,
          CAP1188_STANDBY_CONFIGURATION_REG]

/-- C10 witness: the theorem applied at the in-range field values
1, 5, 2, 3 on the concrete state sW. -/
theorem standbyConfiguration_roundTrip_witness :
    ((1 : Nat) < 2 ∧ (5 : Nat) < 8 ∧ (2 : Nat) < 4 ∧ (3 : Nat) < 4) ∧ sW.i2cOk = true ∧
    (getStandbyConfiguration (setStandbyConfiguration 1 5 2 3 sW).2).1 =
      (true, 1, 5, 2, 3) :=
  ⟨⟨by decide, by decide, by decide, by decide⟩, rfl,
   standbyConfiguration_roundTrip 1 5 2 3 sW (by decide) (by decide) (by decide)
     (by decide) rfl⟩
